import Mathlib

/-!
Verification of the session/context-enrichment and continuity subsystem of a
Telegram personal-assistant relay.  The TypeScript sources are shallowly
embedded: pure string processing becomes Lean functions on `List Char`,
JavaScript regular expressions are embedded by their backtracking semantics
restricted to the patterns the code actually uses, stateful session code
becomes explicit state passing over an `Option SessionState` (the manager's
nullable in-memory record), and throwing reads become `Except`.
-/

/- ===================== Generic string machinery ===================== -/

/-- JavaScript whitespace class `\s`, restricted to ASCII (the inputs the
claims quantify over are ASCII). -/
def isWS (c : Char) : Bool :=
  c = ' ' || c = '\t' || c = '\n' || c = '\r' || c = '\x0b' || c = '\x0c'

/-- Characters matched by JavaScript `.` without the `s` flag: everything
except line terminators. -/
def isDotChar (c : Char) : Bool :=
  !(c = '\n' || c = '\r' || c = '\u2028' || c = '\u2029')

/-- Case-insensitive literal match at the head of a string: if `lit` is a
case-insensitive prefix of `s`, return the remainder, else `none`. -/
def stripCI : List Char → List Char → Option (List Char)
  | [], s => some s
  | _ :: _, [] => none
  | l :: ls, c :: cs => if c.toLower = l.toLower then stripCI ls cs else none

/-- Case-sensitive literal match at the head of a string. -/
def stripExact : List Char → List Char → Option (List Char)
  | [], s => some s
  | _ :: _, [] => none
  | l :: ls, c :: cs => if c = l then stripExact ls cs else none

/-- Whether `lit` occurs case-insensitively anywhere in the string. -/
def containsCI (lit : List Char) : List Char → Bool
  | [] => (stripCI lit []).isSome
  | c :: cs => (stripCI lit (c :: cs)).isSome || containsCI lit cs

/-- JavaScript `String.prototype.trim` (ASCII whitespace). -/
def trimList (s : List Char) : List Char :=
  ((s.dropWhile isWS).reverse.dropWhile isWS).reverse

/-- JavaScript `str.replace(pat, '')` for a plain (non-regex, non-empty)
pattern string: remove the first occurrence of `pat`, if any. -/
def replaceFirst (pat : List Char) : List Char → List Char
  | [] => []
  | c :: rest =>
    match stripExact pat (c :: rest) with
    | some r => r
    | none => c :: replaceFirst pat rest

/- ===================== Subprocess Invocation Gateway =====================
   src/claude/spawner.ts, `ClaudeSpawner.spawn` -/

/-- The character class `[a-f0-9-]` of the session-id regex, under the `i`
flag (so `A`–`F` also match). -/
def isHexDash (c : Char) : Bool :=
  (('a' ≤ c.toLower) && (c.toLower ≤ 'f')) || c.isDigit || c = '-'

/-- One attempt of `/Session ID:\s*([a-f0-9-]+)/i` anchored at the head of
`s`: the literal (case-insensitive), then greedy `\s*`, then a non-empty
maximal run of `[a-f0-9-]` characters (the capture).  The whitespace class
and the token class are disjoint, so the greedy `\s*` never backtracks. -/
def sessionIdAt (s : List Char) : Option String :=
  (stripCI "session id:".data s).bind fun r =>
    let tok := (r.dropWhile isWS).takeWhile isHexDash
    if tok.isEmpty then none else some (String.mk tok)

/-- JavaScript `stdout.match(...)`: leftmost match wins. -/
def findSessionId : List Char → Option String
  | [] => none
  | c :: rest =>
    match sessionIdAt (c :: rest) with
    | some t => some t
    | none => findSessionId rest

/-- `ClaudeSpawnOptions` from src/types/index.ts (fields used by `spawn`). -/
structure ClaudeSpawnOptions where
  prompt : String
  resume : Bool
  sessionId : Option String
  model : Option String
  permissionMode : Option String
  workingDir : Option String
deriving DecidableEq

/-- `ClaudeResponse` from src/types/index.ts (fields `spawn` produces). -/
structure ClaudeResponse where
  content : String
  sessionId : Option String
  error : Option String
deriving DecidableEq

/-- The result mapping of `ClaudeSpawner.spawn` once the child process has
exited with `exitCode`, producing `stdout` and `stderr`:
non-zero exit gives an error result carrying stderr (or the generic text if
stderr is empty) with empty content; zero exit gives trimmed stdout as
content and the extracted session id, falling back to the request's input
session id when extraction fails (`sessionMatch?.[1] || options.sessionId`). -/
def spawnResult (options : ClaudeSpawnOptions) (exitCode : Int)
    (stdout stderr : String) : ClaudeResponse :=
  if exitCode ≠ 0 then
    { content := ""
      sessionId := none
      error := some (if stderr = "" then "Claude exited with code " ++ toString exitCode
                     else stderr) }
  else
    { content := String.mk (trimList stdout.data)
      sessionId := match findSessionId stdout.data with
        | some t => some t
        | none => options.sessionId
      error := none }

/- ===================== Session State Machine =====================
   SessionManager (session manager module) -/

/-- `TokenUsage` from src/types/index.ts. -/
structure TokenUsage where
  totalInput : Int
  totalOutput : Int
  sessionInput : Int
  sessionOutput : Int
  lastUpdated : String
deriving DecidableEq

/-- `ClaudeModel` from src/types/index.ts. -/
inductive ClaudeModel where
  | opus
  | sonnet
  | haiku
deriving DecidableEq

/-- `SessionState` from src/types/index.ts. -/
structure SessionState where
  sessionId : Option String
  lastActivity : String
  currentProject : Option String
  permissionMode : String
  model : ClaudeModel
  thinkingLevel : String
  verbose : Bool
  tokenUsage : TokenUsage
deriving DecidableEq

/-- `SessionManager.getState`: throws when the in-memory state is still null
(`Session not initialized`), else returns it.  Throwing is embedded as
`Except.error`. -/
def getState : Option SessionState → Except String SessionState
  | none => .error "Session not initialized. Call init() first."
  | some st => .ok st

/-- `SessionManager.updateSessionId`: a no-op when uninitialized, otherwise an
unconditional overwrite of `sessionId` plus an activity touch.  There is no
comparison against the previously stored token. -/
def updateSessionId : Option SessionState → String → String → Option SessionState
  | none, _, _ => none
  | some st, sid, now => some { st with sessionId := some sid, lastActivity := now }

/-- `SessionManager.touch`. -/
def touch : Option SessionState → String → Option SessionState
  | none, _ => none
  | some st, now => some { st with lastActivity := now }

/-- `SessionManager.recordUsage`: when `newSession` is true the two session
counters are zeroed first; then the amounts are added to both the lifetime
and the session counters and `lastUpdated` is stamped. -/
def recordUsage : Option SessionState → Int → Int → Bool → String → Option SessionState
  | none, _, _, _, _ => none
  | some st, tokensIn, tokensOut, newSession, now =>
    let tu0 := st.tokenUsage
    let tu1 := if newSession then { tu0 with sessionInput := 0, sessionOutput := 0 } else tu0
    some { st with tokenUsage :=
      { totalInput := tu1.totalInput + tokensIn
        totalOutput := tu1.totalOutput + tokensOut
        sessionInput := tu1.sessionInput + tokensIn
        sessionOutput := tu1.sessionOutput + tokensOut
        lastUpdated := now } }

/-- The record returned by `SessionManager.getTokenUsage`. -/
structure TokenUsageStats where
  input : Int
  output : Int
  total : Int
  sessionInput : Int
  sessionOutput : Int
  sessionTotal : Int
  cost : ℚ
  sessionCost : ℚ
deriving DecidableEq

/-- Per-token input price from the fixed pricing table in `getTokenUsage`. -/
def priceInput : ClaudeModel → ℚ
  | .opus => 15 / 1000000
  | .sonnet => 3 / 1000000
  | .haiku => 1 / 4000000

/-- Per-token output price from the fixed pricing table in `getTokenUsage`. -/
def priceOutput : ClaudeModel → ℚ
  | .opus => 75 / 1000000
  | .sonnet => 15 / 1000000
  | .haiku => 5 / 4000000

/-- `SessionManager.getTokenUsage`: embedded in `Except` so that a throwing
read would be visible as `.error`.  The source returns an all-zero record
when the state is uninitialized and never throws. -/
def getTokenUsage : Option SessionState → Except String TokenUsageStats
  | none => .ok { input := 0, output := 0, total := 0, sessionInput := 0,
                  sessionOutput := 0, sessionTotal := 0, cost := 0, sessionCost := 0 }
  | some st =>
    let pin := priceInput st.model
    let pout := priceOutput st.model
    .ok { input := st.tokenUsage.totalInput
          output := st.tokenUsage.totalOutput
          total := st.tokenUsage.totalInput + st.tokenUsage.totalOutput
          sessionInput := st.tokenUsage.sessionInput
          sessionOutput := st.tokenUsage.sessionOutput
          sessionTotal := st.tokenUsage.sessionInput + st.tokenUsage.sessionOutput
          cost := (st.tokenUsage.totalInput : ℚ) * pin + (st.tokenUsage.totalOutput : ℚ) * pout
          sessionCost := (st.tokenUsage.sessionInput : ℚ) * pin
                         + (st.tokenUsage.sessionOutput : ℚ) * pout }

/-- The session-state effects of `MessageHandler.handleText` after an
invocation returns: on an error result the handler replies and returns with
the state untouched; on success it overwrites the session id when the result
carries one, and finally touches the activity timestamp. -/
def applySpawnResult (m : Option SessionState) (r : ClaudeResponse)
    (nowUpdate nowTouch : String) : Option SessionState :=
  match r.error with
  | some _ => m
  | none =>
    let m1 := match r.sessionId with
      | some sid => updateSessionId m sid nowUpdate
      | none => m
    touch m1 nowTouch

/- ===================== Memory-Intent Post-Processor =====================
   src/memory/supabase.ts, `MemorySystem.processMemoryIntents` -/

/-- The lazy group-and-close `(.+?)\]` of the tag regexes: the shortest
non-empty run of `.`-matchable characters whose next character is `]`;
returns the capture and the remainder after the closing bracket. -/
def lazyCapture : List Char → Option (List Char × List Char)
  | [] => none
  | c :: rest =>
    if isDotChar c then
      match rest with
      | ']' :: r2 => some ([c], r2)
      | _ =>
        match lazyCapture rest with
        | some (cap, r) => some (c :: cap, r)
        | none => none
    else none

/-- Backtracking over the greedy `\s*` that precedes `(.+?)\]`: the engine
first consumes the maximal whitespace run, and on failure gives characters
back one at a time. -/
def tagBodyGo (rest : List Char) : Nat → Option (List Char × List Char)
  | 0 => lazyCapture rest
  | w + 1 =>
    match lazyCapture (rest.drop (w + 1)) with
    | some r => some r
    | none => tagBodyGo rest w

/-- `\s*(.+?)\]` with JavaScript backtracking semantics. -/
def tagBody (rest : List Char) : Option (List Char × List Char) :=
  tagBodyGo rest (rest.takeWhile isWS).length

/-- `/\[REMEMBER:\s*(.+?)\]/i` anchored at the head of `s`. -/
def rememberAt (s : List Char) : Option (List Char × List Char) :=
  (stripCI "[remember:".data s).bind tagBody

/-- `/\[DONE:\s*(.+?)\]/i` anchored at the head of `s`. -/
def doneAt (s : List Char) : Option (List Char × List Char) :=
  (stripCI "[done:".data s).bind tagBody

/-- The optional deadline group `\s*\|\s*DEADLINE:\s*(.+?)` followed by the
closing `\]`: both greedy `\s*` runs stand before non-whitespace literals, so
they never backtrack; the final `\s*(.+?)\]` is `tagBody`. -/
def deadlinePart (rest : List Char) : Option (List Char × List Char) :=
  match rest.dropWhile isWS with
  | '|' :: r2 =>
    match stripCI "deadline:".data (r2.dropWhile isWS) with
    | some r3 => tagBody r3
    | none => none
  | _ => none

/-- After the lazily grown goal content: the greedy optional group is tried
first, and if it fails the group matches empty and the closing `]` must
follow immediately. -/
def goalAfterContent (rest : List Char) : Option (Option (List Char) × List Char) :=
  match deadlinePart rest with
  | some (d, r) => some (some d, r)
  | none =>
    match rest with
    | ']' :: r => some (none, r)
    | _ => none

/-- The lazy goal content `(.+?)` : grown one character at a time, trying the
optional deadline group and the closing bracket after each step. -/
def goalLazy : List Char → Option ((List Char × Option (List Char)) × List Char)
  | [] => none
  | c :: rest =>
    if isDotChar c then
      match goalAfterContent rest with
      | some (d, r) => some (([c], d), r)
      | none =>
        match goalLazy rest with
        | some ((cap, d), r) => some ((c :: cap, d), r)
        | none => none
    else none

/-- Backtracking over the greedy `\s*` before the goal content. -/
def goalBodyGo (rest : List Char) : Nat → Option ((List Char × Option (List Char)) × List Char)
  | 0 => goalLazy rest
  | w + 1 =>
    match goalLazy (rest.drop (w + 1)) with
    | some r => some r
    | none => goalBodyGo rest w

/-- `/\[GOAL:\s*(.+?)(?:\s*\|\s*DEADLINE:\s*(.+?))?\]/i` anchored at the
head of `s`. -/
def goalAt (s : List Char) : Option ((List Char × Option (List Char)) × List Char) :=
  (stripCI "[goal:".data s).bind fun rest =>
    goalBodyGo rest (rest.takeWhile isWS).length

/-- JavaScript `matchAll` over a `g`-flagged regex: scan left to right,
resuming after the end of each (non-empty) match.  Returns for each match
the full matched substring `m[0]` together with the capture payload.  Fuel
is instantiated with the string length, which bounds the number of steps. -/
def scanMatches {α : Type} (matchAt : List Char → Option (α × List Char)) :
    Nat → List Char → List (List Char × α)
  | 0, _ => []
  | _ + 1, [] => []
  | fuel + 1, c :: rest =>
    match matchAt (c :: rest) with
    | some (a, r) =>
      ((c :: rest).take ((c :: rest).length - r.length), a) :: scanMatches matchAt fuel r
    | none => scanMatches matchAt fuel rest

/-- One store mutation issued while post-processing a response
(`saveFact`, `saveGoal`, `completeGoal` in src/memory/supabase.ts). -/
inductive StoreCall where
  | insertFact (content : String)
  | insertGoal (content : String) (deadline : Option String)
  | markGoalComplete (searchText : String)
deriving DecidableEq

/-- `MemorySystem.processMemoryIntents`: all three tag regexes are matched
against the original response; REMEMBER matches are processed first, then
GOAL, then DONE; each processed match is deleted from the accumulating clean
text (first occurrence of the exact matched substring) and the final clean
text is trimmed.  Returns the clean response together with the store calls
in issue order. -/
def processMemoryIntents (response : String) : String × List StoreCall :=
  let s := response.data
  let rems := scanMatches rememberAt s.length s
  let clean1 := rems.foldl (fun cl m => replaceFirst m.1 cl) s
  let goals := scanMatches goalAt s.length s
  let clean2 := goals.foldl (fun cl m => replaceFirst m.1 cl) clean1
  let dones := scanMatches doneAt s.length s
  let clean3 := dones.foldl (fun cl m => replaceFirst m.1 cl) clean2
  (String.mk (trimList clean3),
    rems.map (fun m => StoreCall.insertFact (String.mk m.2))
      ++ goals.map (fun m => StoreCall.insertGoal (String.mk m.2.1) (m.2.2.map String.mk))
      ++ dones.map (fun m => StoreCall.markGoalComplete (String.mk m.2)))

/- ===================== Store-side goal completion =====================
   src/memory/supabase.ts, `MemorySystem.completeGoal` -/

/-- A row of the `memory` table, in insertion order inside the table list. -/
structure MemRow where
  id : Nat
  type : String
  content : String
  deadline : Option String
  completedAt : Option String
deriving DecidableEq

/-- SQL `content ILIKE '%search%'` for a search string without wildcard
characters: case-insensitive substring test. -/
def ilike (search : String) (content : String) : Bool :=
  containsCI search.data content.data

/-- The row filter of the completion query:
`.eq('type', 'goal').ilike('content', '%search%')`. -/
def goalMatches (search : String) (r : MemRow) : Bool :=
  r.type == "goal" && ilike search r.content

/-- `MemorySystem.completeGoal`: the query selects matching rows with
`.limit(1)` and no order clause, so it yields the first matching row in
table order; if one exists, that row (by id) is updated in place to
`completed_goal` with `completed_at` stamped; otherwise nothing happens. -/
def completeGoal (table : List MemRow) (search : String) (now : String) : List MemRow :=
  match (table.filter (goalMatches search)).head? with
  | none => table
  | some r =>
    table.map fun q =>
      if q.id = r.id then { q with type := "completed_goal", completedAt := some now }
      else q

/- ===================== Prompt Enrichment Builder =====================
   src/claude/spawner.ts, `ClaudeSpawner.buildEnrichedPrompt` -/

/-- `WorkspaceFiles` from src/types/index.ts. -/
structure WorkspaceFiles where
  agents : String
  tools : String
  soul : String
  memory : String
deriving DecidableEq

def whoHeader : String := "\n## WHO YOU ARE\n"

def workspaceHeader : String := "\n## WORKSPACE GUIDE\n"

def localEnvHeader : String := "\n## LOCAL ENVIRONMENT\n"

def memoryHeader : String := "\n## YOUR MEMORY\n"

def factsHeader : String := "\n## FACTS & GOALS\n"

def relevantHeader : String := "\n## RELEVANT PAST CONTEXT\n"

/-- The six conditional section headers, in the order the builder pushes
them. -/
def headerList : List String :=
  [whoHeader, workspaceHeader, localEnvHeader, memoryHeader, factsHeader, relevantHeader]

/-- Whether a prompt part is one of the six conditional section headers. -/
def isHeaderPart (p : String) : Bool :=
  decide (p ∈ headerList)

/-- The unconditional system preamble. -/
def preambleParts : List String :=
  ["You are a personal AI assistant responding via Telegram.",
   "You have full Claude Code capabilities: tools, file access, web search, git, and more.",
   "Keep responses concise and conversational for Telegram."]

/-- The unconditional memory-management tag-grammar instructions. -/
def memMgmtParts : List String :=
  ["\n## MEMORY MANAGEMENT",
   "When the user shares important information, use these tags in your response:",
   "- [REMEMBER: fact to store] — for facts to remember",
   "- [GOAL: task | DEADLINE: optional date] — for goals",
   "- [DONE: search text] — to mark a goal as completed",
   "",
   "These tags are automatically processed and hidden from the user."]

/-- The `parts` array built by `ClaudeSpawner.buildEnrichedPrompt`, element
for element: JavaScript truthiness on the optional strings means a section
is pushed exactly when its content is non-empty.  `timeStr` stands for the
wall-clock time string formatted in the configured timezone. -/
def buildEnrichedPromptParts (userName timeStr userMessage : String)
    (wf : WorkspaceFiles) (memoryContext relevantMessages : String) : List String :=
  preambleParts
  ++ (if userName = "" then [] else ["\nYou are assisting " ++ userName ++ "."])
  ++ ["Current time: " ++ timeStr]
  ++ (if wf.soul = "" then [] else [whoHeader, wf.soul])
  ++ (if wf.agents = "" then [] else [workspaceHeader, wf.agents])
  ++ (if wf.tools = "" then [] else [localEnvHeader, wf.tools])
  ++ (if wf.memory = "" then [] else [memoryHeader, wf.memory])
  ++ (if memoryContext = "" then [] else [factsHeader, memoryContext])
  ++ (if relevantMessages = "" then [] else [relevantHeader, relevantMessages])
  ++ memMgmtParts
  ++ ["\n## USER MESSAGE\n" ++ userMessage]

/-- `ClaudeSpawner.buildEnrichedPrompt`: the parts joined with newlines. -/
def buildEnrichedPrompt (userName timeStr userMessage : String)
    (wf : WorkspaceFiles) (memoryContext relevantMessages : String) : String :=
  String.intercalate "\n"
    (buildEnrichedPromptParts userName timeStr userMessage wf memoryContext relevantMessages)

/- ===================== Proactive Decision Protocol =====================
   CronScheduler.smartCheckin (cron scheduler module) -/

/-- `/DECISION:\s*(YES|NO)/i` anchored at the head of `s`: the greedy `\s*`
stands before letters, so it never backtracks; alternation tries `YES`
first.  Returns the captured characters in their original case. -/
def decisionAt (s : List Char) : Option (List Char) :=
  (stripCI "decision:".data s).bind fun r =>
    let r2 := r.dropWhile isWS
    match stripCI "yes".data r2 with
    | some _ => some (r2.take 3)
    | none =>
      match stripCI "no".data r2 with
      | some _ => some (r2.take 2)
      | none => none

/-- Leftmost match of the DECISION pattern. -/
def findDecision : List Char → Option (List Char)
  | [] => none
  | c :: rest =>
    match decisionAt (c :: rest) with
    | some cap => some cap
    | none => findDecision rest

/-- The lookahead `(?=\nREASON:|$)` of the MESSAGE pattern (with the `i`
flag on the literal; `$` without `m` is strict end of input). -/
def msgBoundary (r : List Char) : Bool :=
  r.isEmpty || (stripCI "\nreason:".data r).isSome

/-- The lazy `(.+?)` of the MESSAGE pattern under the `s` flag (every
character matches): the shortest non-empty prefix after which the lookahead
holds. -/
def msgLazy : List Char → Option (List Char)
  | [] => none
  | c :: rest =>
    if msgBoundary rest then some [c]
    else
      match msgLazy rest with
      | some cap => some (c :: cap)
      | none => none

/-- Backtracking over the greedy `\s*` before the message content. -/
def msgBodyGo (rest : List Char) : Nat → Option (List Char)
  | 0 => msgLazy rest
  | w + 1 =>
    match msgLazy (rest.drop (w + 1)) with
    | some cap => some cap
    | none => msgBodyGo rest w

/-- `/MESSAGE:\s*(.+?)(?=\nREASON:|$)/is` anchored at the head of `s`. -/
def messageAt (s : List Char) : Option (List Char) :=
  (stripCI "message:".data s).bind fun rest =>
    msgBodyGo rest (rest.takeWhile isWS).length

/-- Leftmost match of the MESSAGE pattern. -/
def findMessage : List Char → Option (List Char)
  | [] => none
  | c :: rest =>
    match messageAt (c :: rest) with
    | some cap => some cap
    | none => findMessage rest

/-- The check-in decision computed by `CronScheduler.smartCheckin` from the
engine's response text: `shouldCheckin` is true exactly when the captured
decision uppercases to `YES`; the message is the trimmed MESSAGE capture;
the check-in is sent (`some message`) only when the decision is YES and the
message is truthy and differs from the literal placeholder `none`. -/
def smartCheckinAction (content : String) : Option String :=
  let shouldCheckin :=
    match findDecision content.data with
    | some cap => String.mk (cap.map Char.toUpper) == "YES"
    | none => false
  let message := (findMessage content.data).map fun m => String.mk (trimList m)
  let msgOk :=
    match message with
    | some m => !(m == "") && !(m == "none")
    | none => false
  if shouldCheckin && msgOk then message else none

/- ===================== Helper lemmas ===================== -/

/-- If the marker literal does not occur case-insensitively in the string,
the session-id scan finds nothing. -/
theorem findSessionId_eq_none (s : List Char)
    (h : containsCI "session id:".data s = false) : findSessionId s = none := by
  induction s with
  | nil => rfl
  | cons c rest ih =>
    rw [containsCI] at h
    simp only [Bool.or_eq_false_iff] at h
    obtain ⟨h1, h2⟩ := h
    rw [findSessionId]
    cases hs : sessionIdAt (c :: rest) with
    | some t =>
      exfalso
      rw [sessionIdAt] at hs
      cases he : stripCI "session id:".data (c :: rest) with
      | none => rw [he] at hs; simp at hs
      | some r => rw [he] at h1; simp at h1
    | none => exact ih h2

/- ===================== C1 ===================== -/

/-- C1 is false on the code: `SessionManager.updateSessionId` is an
unconditional overwrite, so when I1's result (token `t1`) is applied after
I2's result (token `t2`), the end state holds `t1`, not the `t2` that I2
had already committed — there is no compare-and-swap. -/
theorem stale_result_cas_counterexample :
    (applySpawnResult
        (applySpawnResult
          (some ⟨some "t0", "a0", none, "default", ClaudeModel.sonnet, "medium", false,
                 ⟨0, 0, 0, 0, "u"⟩⟩)
          ⟨"r2", some "t2", none⟩ "n2" "n2")
        ⟨"r1", some "t1", none⟩ "n3" "n3").map SessionState.sessionId
      = some (some "t1")
    ∧ ("t1" : String) ≠ "t2" := ⟨rfl, by decide⟩

/-- C1 (amended): the continuation-token update is a blind last-writer-wins
overwrite: for every initialized session state, applying I1's successful
result (new token `t1`) after I2's successful result (new token `t2`)
leaves the session holding I1's token `t1` — I2's committed token is
overwritten, the opposite of compare-and-swap discard. -/
theorem token_update_is_blind_overwrite (st : SessionState)
    (c1 c2 t1 t2 n2 n2' n3 n3' : String) :
    (applySpawnResult
        (applySpawnResult (some st) ⟨c2, some t2, none⟩ n2 n2')
        ⟨c1, some t1, none⟩ n3 n3').map SessionState.sessionId = some (some t1) := by
  simp [applySpawnResult, updateSessionId, touch]

/- ===================== C2 ===================== -/

/-- C2: sticky continuation token.  For an invocation carrying prior token
`t1` whose engine exits with code 0: if stdout contains no occurrence of the
`Session ID:` marker, the result reports `t1` (never none); if the marker
pattern matches and extracts a token, that token replaces `t1` in the
result. -/
theorem spawn_sticky_token (opts : ClaudeSpawnOptions) (stdout stderr t1 : String)
    (h1 : opts.sessionId = some t1) :
    (containsCI "session id:".data stdout.data = false →
      (spawnResult opts 0 stdout stderr).sessionId = some t1)
    ∧ (∀ t, findSessionId stdout.data = some t →
      (spawnResult opts 0 stdout stderr).sessionId = some t) := by
  constructor
  · intro h
    have hn := findSessionId_eq_none stdout.data h
    simp [spawnResult, hn, h1]
  · intro t ht
    simp [spawnResult, ht]

/-- Witness for C2 at a concrete input. -/
theorem spawn_sticky_token_witness :
    (spawnResult ⟨"p", true, some "abc-123", none, none, none⟩ 0 "no marker here" "").sessionId
      = some "abc-123" :=
  (spawn_sticky_token ⟨"p", true, some "abc-123", none, none, none⟩
    "no marker here" "" "abc-123" rfl).1 (by decide)

/- ===================== C3 ===================== -/

/-- C3: on a non-zero exit code the result is an error carrying stderr (or
the generic `exited with code N` text when stderr is empty), the content is
empty (stdout discarded), and the handler's session-state effects leave the
state — continuation token and usage counters included — exactly as it was
before the call. -/
theorem spawn_error_leaves_session_unchanged (opts : ClaudeSpawnOptions) (code : Int)
    (stdout stderr : String) (m : Option SessionState) (n1 n2 : String) (h : code ≠ 0) :
    (spawnResult opts code stdout stderr).content = ""
    ∧ (spawnResult opts code stdout stderr).error
        = some (if stderr = "" then "Claude exited with code " ++ toString code else stderr)
    ∧ applySpawnResult m (spawnResult opts code stdout stderr) n1 n2 = m := by
  refine ⟨?_, ?_, ?_⟩ <;> simp [spawnResult, h, applySpawnResult]

/-- Witness for C3: exit code 1, stderr `rate limited`, as in the spec's
concrete scenario. -/
theorem spawn_error_witness :
    (spawnResult ⟨"p", true, some "T1", none, none, none⟩ 1 "out" "rate limited").content = ""
    ∧ (spawnResult ⟨"p", true, some "T1", none, none, none⟩ 1 "out" "rate limited").error
        = some (if "rate limited" = "" then "Claude exited with code " ++ toString (1 : Int)
                else "rate limited")
    ∧ applySpawnResult
        (some ⟨some "T1", "a0", none, "default", ClaudeModel.sonnet, "medium", false,
               ⟨7, 8, 9, 10, "u"⟩⟩)
        (spawnResult ⟨"p", true, some "T1", none, none, none⟩ 1 "out" "rate limited") "n1" "n2"
      = some ⟨some "T1", "a0", none, "default", ClaudeModel.sonnet, "medium", false,
              ⟨7, 8, 9, 10, "u"⟩⟩ :=
  spawn_error_leaves_session_unchanged ⟨"p", true, some "T1", none, none, none⟩ 1 "out"
    "rate limited"
    (some ⟨some "T1", "a0", none, "default", ClaudeModel.sonnet, "medium", false,
           ⟨7, 8, 9, 10, "u"⟩⟩) "n1" "n2" (by decide)

/- ===================== C4 ===================== -/

/-- C4: `recordUsage` zeroes the session counters first when `isNewSession`
and then adds to both lifetime and session counters in one update; the
spec's concrete sequence yields session totals 110/55 with lifetime totals
the full sum; and lifetime counters never decrease for non-negative
inputs. -/
theorem recordUsage_spec (st : SessionState) (tokensIn tokensOut : Int) (ns : Bool)
    (now n1 n2 : String) :
    recordUsage (some st) tokensIn tokensOut ns now
      = some { st with tokenUsage :=
          { totalInput := st.tokenUsage.totalInput + tokensIn
            totalOutput := st.tokenUsage.totalOutput + tokensOut
            sessionInput := (if ns then 0 else st.tokenUsage.sessionInput) + tokensIn
            sessionOutput := (if ns then 0 else st.tokenUsage.sessionOutput) + tokensOut
            lastUpdated := now } }
    ∧ (recordUsage (recordUsage (some st) 100 50 true n1) 10 5 false n2).map
        (fun s => (s.tokenUsage.sessionInput, s.tokenUsage.sessionOutput,
                   s.tokenUsage.totalInput, s.tokenUsage.totalOutput))
      = some (110, 55, st.tokenUsage.totalInput + 110, st.tokenUsage.totalOutput + 55)
    ∧ (0 ≤ tokensIn → 0 ≤ tokensOut → ∀ s',
        recordUsage (some st) tokensIn tokensOut ns now = some s' →
        st.tokenUsage.totalInput ≤ s'.tokenUsage.totalInput
        ∧ st.tokenUsage.totalOutput ≤ s'.tokenUsage.totalOutput) := by
  refine ⟨?_, ?_, ?_⟩
  · cases ns <;> simp [recordUsage]
  · simp [recordUsage]
    omega
  · intro hIn hOut s' hs
    cases ns <;>
      (simp [recordUsage] at hs
       cases hs
       constructor <;> simp <;> omega)

/-- Witness for C4 at a concrete state and concrete non-negative inputs. -/
theorem recordUsage_spec_witness :
    ((0 : Int) ≤ 2) ∧
    ∀ s', recordUsage
        (some ⟨none, "a0", none, "default", ClaudeModel.opus, "medium", false,
               ⟨40, 30, 20, 10, "u"⟩⟩) 2 3 false "n" = some s' →
      (40 : Int) ≤ s'.tokenUsage.totalInput ∧ (30 : Int) ≤ s'.tokenUsage.totalOutput :=
  ⟨by decide,
   (recordUsage_spec ⟨none, "a0", none, "default", ClaudeModel.opus, "medium", false,
      ⟨40, 30, 20, 10, "u"⟩⟩ 2 3 false "n" "n1" "n2").2.2 (by decide) (by decide)⟩

/- ===================== C7 ===================== -/

/-- C7 is false on the code: reading the token-usage summary before
initialization does not throw — `getTokenUsage` silently returns an
all-zero record (embedded: `Except.ok`, not `Except.error`). -/
theorem uninitialized_usage_read_counterexample :
    getTokenUsage (none : Option SessionState) = Except.ok ⟨0, 0, 0, 0, 0, 0, 0, 0⟩ := rfl

/-- C7 (amended): `getState` fails loudly on an uninitialized read
(it throws `Session not initialized`), but the token-usage summary read is
an exception to the fail-loudly rule: `getTokenUsage` never throws and
silently returns an all-zero summary when the state is uninitialized. -/
theorem getState_loud_getTokenUsage_silent (st : SessionState) :
    getState (none : Option SessionState)
      = Except.error "Session not initialized. Call init() first."
    ∧ getState (some st) = Except.ok st
    ∧ getTokenUsage (none : Option SessionState) = Except.ok ⟨0, 0, 0, 0, 0, 0, 0, 0⟩
    ∧ ∀ m : Option SessionState, ∃ stats, getTokenUsage m = Except.ok stats := by
  refine ⟨rfl, rfl, rfl, ?_⟩
  intro m
  cases m <;> exact ⟨_, rfl⟩

/- ===================== C10 ===================== -/

/-- C10: the extraction marker only recognizes tokens of hexadecimal digits
and dashes.  If stdout consists of the marker followed by a token whose
first character is outside the class (and not whitespace, so the greedy
`\s*` cannot skip it), and the marker occurs nowhere later, then no token is
extracted and a zero-exit invocation reports the request's input token,
exactly as in the marker-absent case. -/
theorem bad_token_char_keeps_input_token (opts : ClaudeSpawnOptions) (t1 : String)
    (c : Char) (tail stderr : String) (h1 : opts.sessionId = some t1)
    (hhex : isHexDash c = false) (hws : isWS c = false)
    (hrest : containsCI "session id:".data ("ession ID: ".data ++ c :: tail.data) = false) :
    (spawnResult opts 0 (String.mk ("Session ID: ".data ++ c :: tail.data)) stderr).sessionId
      = some t1 := by
  have hAt : sessionIdAt ("Session ID: ".data ++ c :: tail.data) = none := by
    have e : stripCI "session id:".data ("Session ID: ".data ++ c :: tail.data)
        = some (' ' :: c :: tail.data) := rfl
    rw [sessionIdAt, e, Option.some_bind]
    have hsp : isWS ' ' = true := rfl
    simp [List.dropWhile_cons, List.takeWhile_cons, hsp, hws, hhex]
  have hfind : findSessionId ("Session ID: ".data ++ c :: tail.data) = none := by
    show findSessionId ('S' :: ("ession ID: ".data ++ c :: tail.data)) = none
    rw [findSessionId]
    rw [show sessionIdAt ('S' :: ("ession ID: ".data ++ c :: tail.data)) = none from hAt]
    exact findSessionId_eq_none _ hrest
  have hdata : (String.mk ("Session ID: ".data ++ c :: tail.data)).data
      = "Session ID: ".data ++ c :: tail.data := rfl
  have hfind2 : findSessionId
      ('S' :: 'e' :: 's' :: 's' :: 'i' :: 'o' :: 'n' :: ' ' :: 'I' :: 'D' :: ':' :: ' '
        :: c :: tail.data) = none := hfind
  simp [spawnResult, hdata, hfind2, h1]

/-- Witness for C10: token starting with `z` (a letter outside `a`–`f`). -/
theorem bad_token_char_witness :
    (spawnResult ⟨"p", true, some "abc-123", none, none, none⟩ 0
        (String.mk ("Session ID: ".data ++ 'z' :: "123\nbye".data)) "").sessionId
      = some "abc-123" :=
  bad_token_char_keeps_input_token ⟨"p", true, some "abc-123", none, none, none⟩
    "abc-123" 'z' "123\nbye" "" rfl (by decide) (by decide) (by decide)

/- ===================== C5 ===================== -/

/-- C5: fail-closed decision parsing.  For every engine response text: if no
`DECISION: YES|NO` pattern matches at all (empty string, garbled text), no
check-in is sent; if the pattern matches but the captured decision does not
normalize (uppercase) to exactly `YES` (e.g. `DECISION: NO`), no check-in is
sent regardless of the MESSAGE field; and a MESSAGE field equal to the
literal placeholder `none` yields no action even when the decision is
YES. -/
theorem checkin_fail_closed (content : String) :
    (findDecision content.data = none → smartCheckinAction content = none)
    ∧ (∀ cap, findDecision content.data = some cap →
        String.mk (cap.map Char.toUpper) ≠ "YES" → smartCheckinAction content = none)
    ∧ ((findMessage content.data).map (fun m => String.mk (trimList m)) = some "none" →
        smartCheckinAction content = none) := by
  refine ⟨?_, ?_, ?_⟩
  · intro h
    simp [smartCheckinAction, h]
  · intro cap hc hne
    simp [smartCheckinAction, hc, hne]
  · intro h
    simp [smartCheckinAction, h]

/-- Witness for C5: `DECISION: NO` with a non-empty message sends nothing. -/
theorem checkin_fail_closed_witness :
    smartCheckinAction "DECISION: NO\nMESSAGE: hello\nREASON: r" = none :=
  (checkin_fail_closed "DECISION: NO\nMESSAGE: hello\nREASON: r").2.1
    ['N', 'O'] (by decide) (by decide)

/- ===================== C6 ===================== -/

/-- C6: tag round-trip and fixed processing order.  Processing the response
`[REMEMBER: X][GOAL: Y | DEADLINE: Z][DONE: Y]` yields an empty clean
response (in particular containing none of the three bracket substrings) and
exactly one fact-insert, one goal-insert and one goal-completion store call,
in that order; moreover for every response the store calls issued are all
fact-inserts, then all goal-inserts, then all goal-completions. -/
theorem tag_roundtrip_and_order :
    processMemoryIntents "[REMEMBER: X][GOAL: Y | DEADLINE: Z][DONE: Y]"
      = ("", [StoreCall.insertFact "X", StoreCall.insertGoal "Y" (some "Z"),
              StoreCall.markGoalComplete "Y"])
    ∧ containsCI "[remember:".data
        (processMemoryIntents "[REMEMBER: X][GOAL: Y | DEADLINE: Z][DONE: Y]").1.data = false
    ∧ containsCI "[goal:".data
        (processMemoryIntents "[REMEMBER: X][GOAL: Y | DEADLINE: Z][DONE: Y]").1.data = false
    ∧ containsCI "[done:".data
        (processMemoryIntents "[REMEMBER: X][GOAL: Y | DEADLINE: Z][DONE: Y]").1.data = false
    ∧ ∀ resp : String, ∃ (fs : List String) (gs : List (String × Option String))
        (ds : List String),
        (processMemoryIntents resp).2
          = fs.map StoreCall.insertFact
            ++ gs.map (fun p => StoreCall.insertGoal p.1 p.2)
            ++ ds.map StoreCall.markGoalComplete := by
  refine ⟨by decide, by decide, by decide, by decide, ?_⟩
  intro resp
  refine ⟨(scanMatches rememberAt resp.data.length resp.data).map (fun m => String.mk m.2),
          (scanMatches goalAt resp.data.length resp.data).map
            (fun m => (String.mk m.2.1, m.2.2.map String.mk)),
          (scanMatches doneAt resp.data.length resp.data).map (fun m => String.mk m.2), ?_⟩
  simp only [processMemoryIntents, List.map_map]
  rfl

/- ===================== C8 ===================== -/

/-- C8 is false on the code: when several open goals match the search text,
the completion query carries no order clause and `.limit(1)`, so the first
matching row in table order is completed — here the older goal (id 1) is
transitioned while the most recent matching goal (id 2) stays open,
contradicting the claimed most-recent-wins rule. -/
theorem completeGoal_most_recent_counterexample :
    completeGoal
        [⟨1, "goal", "call mom", none, none⟩, ⟨2, "goal", "call mom today", none, none⟩]
        "call mom" "T"
      = [⟨1, "completed_goal", "call mom", none, some "T"⟩,
         ⟨2, "goal", "call mom today", none, none⟩]
    ∧ (completeGoal
        [⟨1, "goal", "call mom", none, none⟩, ⟨2, "goal", "call mom today", none, none⟩]
        "call mom" "T").get? 1
      ≠ some ⟨2, "completed_goal", "call mom today", none, some "T"⟩ := by
  constructor
  · rfl
  · decide

/-- C8 (amended): `[DONE: text]` matching is case-insensitive substring
against currently-open goals only (`type = goal`); when several open goals
match, the completed one is the first matching row in table order (the query
requests no ordering; under insertion order this is the oldest match, not
the most recent); the matched goal is transitioned in place — same id, same
content, type mutated, `completedAt` set, table length unchanged, rows with
other ids untouched — and when no goal matches the operation is a silent
no-op. -/
theorem completeGoal_first_match (table : List MemRow) (search now : String) :
    ((table.filter (goalMatches search)).head? = none →
      completeGoal table search now = table)
    ∧ (∀ r, (table.filter (goalMatches search)).head? = some r →
        r ∈ table ∧ r.type = "goal" ∧ ilike search r.content = true
        ∧ (∀ q, q ∈ table.filter (goalMatches search) →
            q ∈ table ∧ q.type = "goal" ∧ ilike search q.content = true)
        ∧ (completeGoal table search now).length = table.length
        ∧ { r with type := "completed_goal", completedAt := some now }
            ∈ completeGoal table search now
        ∧ ∀ q ∈ table, q.id ≠ r.id → q ∈ completeGoal table search now) := by
  constructor
  · intro h
    simp [completeGoal, h]
  · intro r hr
    have hrf : r ∈ table.filter (goalMatches search) := by
      cases hfe : table.filter (goalMatches search) with
      | nil => rw [hfe] at hr; simp at hr
      | cons a l =>
        rw [hfe] at hr
        simp at hr
        rw [hr]
        exact List.mem_cons_self r l
    have hmem : r ∈ table := (List.mem_filter.mp hrf).1
    have hpred : goalMatches search r = true := (List.mem_filter.mp hrf).2
    have htype : r.type = "goal" := by
      simp [goalMatches] at hpred
      exact hpred.1
    have hilike : ilike search r.content = true := by
      simp [goalMatches] at hpred
      exact hpred.2
    refine ⟨hmem, htype, hilike, ?_, ?_, ?_, ?_⟩
    · intro q hq
      have h1 : q ∈ table := (List.mem_filter.mp hq).1
      have h2 : goalMatches search q = true := (List.mem_filter.mp hq).2
      simp [goalMatches] at h2
      exact ⟨h1, h2.1, h2.2⟩
    · simp [completeGoal, hr]
    · simp only [completeGoal, hr]
      refine List.mem_map.mpr ⟨r, hmem, ?_⟩
      simp
    · intro q hq hneq
      simp only [completeGoal, hr]
      refine List.mem_map.mpr ⟨q, hq, ?_⟩
      simp [hneq]

/-- Witness for C8: a fact row whose content matches is not an open goal, so
the completion is a silent no-op. -/
theorem completeGoal_first_match_witness :
    completeGoal [⟨1, "fact", "call mom", none, none⟩] "call mom" "T"
      = [⟨1, "fact", "call mom", none, none⟩] :=
  (completeGoal_first_match [⟨1, "fact", "call mom", none, none⟩] "call mom" "T").1 (by decide)

/- ===================== C9 ===================== -/

/-- Strings that differ at some character position differ. -/
theorem string_ne_of_nth (s t : String) (k : Nat) (h : s.data[k]? ≠ t.data[k]?) : s ≠ t :=
  fun he => h (by rw [he])

/-- Character facts shared by all six section headers. -/
theorem header_nth_facts (h : String) (hh : h ∈ headerList) :
    h.data[0]? = some '\n' ∧ h.data[1]? = some '#' ∧ h.data[4]? ≠ some 'U' := by
  simp only [headerList, List.mem_cons, List.not_mem_nil, or_false] at hh
  rcases hh with rfl | rfl | rfl | rfl | rfl | rfl <;> exact ⟨rfl, rfl, by decide⟩

/-- The current-time part is never a section header. -/
theorem time_part_ne_header (t h : String) (hh : h ∈ headerList) :
    "Current time: " ++ t ≠ h := by
  apply string_ne_of_nth _ _ 0
  have e : ("Current time: " ++ t).data[0]? = some 'C' := by
    rw [String.data_append, List.getElem?_append_left (by decide)]
    rfl
  rw [e, (header_nth_facts h hh).1]
  decide

/-- The user-identity part is never a section header. -/
theorem identity_part_ne_header (u h : String) (hh : h ∈ headerList) :
    "\nYou are assisting " ++ u ++ "." ≠ h := by
  apply string_ne_of_nth _ _ 1
  have h1 : (1 : Nat) < ("\nYou are assisting ".data ++ u.data).length := by
    rw [List.length_append]
    have h19 : ("\nYou are assisting ").data.length = 19 := by decide
    omega
  have e : ("\nYou are assisting " ++ u ++ ".").data[1]? = some 'Y' := by
    rw [String.data_append, String.data_append, List.getElem?_append_left h1,
        List.getElem?_append_left (by decide)]
    rfl
  rw [e, (header_nth_facts h hh).2.1]
  decide

/-- The user-message part is never a section header. -/
theorem user_part_ne_header (u h : String) (hh : h ∈ headerList) :
    "\n## USER MESSAGE\n" ++ u ≠ h := by
  apply string_ne_of_nth _ _ 4
  have e : ("\n## USER MESSAGE\n" ++ u).data[4]? = some 'U' := by
    rw [String.data_append, List.getElem?_append_left (by decide)]
    rfl
  rw [e]
  exact ((header_nth_facts h hh).2.2).symm

/-- C9: empty-section omission with fixed ordering.  Provided the free-text
inputs are not themselves literally one of the six header strings, the
sequence of section headers emitted by the builder is a sublist of the six
headers in their fixed order (persona, workspace-guide, environment-notes,
curated-memory, facts/goals, relevant history), and each header is absent
from the parts whenever its section content is the empty string — an empty
section never emits its header. -/
theorem prompt_sections_ordered_and_omitted (userName timeStr userMessage : String)
    (wf : WorkspaceFiles) (memCtx rel : String)
    (hs : wf.soul ∉ headerList) (ha : wf.agents ∉ headerList)
    (ht : wf.tools ∉ headerList) (hm : wf.memory ∉ headerList)
    (hmc : memCtx ∉ headerList) (hr : rel ∉ headerList) :
    List.Sublist
      ((buildEnrichedPromptParts userName timeStr userMessage wf memCtx rel).filter isHeaderPart)
      headerList
    ∧ (wf.soul = "" →
        whoHeader ∉ buildEnrichedPromptParts userName timeStr userMessage wf memCtx rel)
    ∧ (wf.agents = "" →
        workspaceHeader ∉ buildEnrichedPromptParts userName timeStr userMessage wf memCtx rel)
    ∧ (wf.tools = "" →
        localEnvHeader ∉ buildEnrichedPromptParts userName timeStr userMessage wf memCtx rel)
    ∧ (wf.memory = "" →
        memoryHeader ∉ buildEnrichedPromptParts userName timeStr userMessage wf memCtx rel)
    ∧ (memCtx = "" →
        factsHeader ∉ buildEnrichedPromptParts userName timeStr userMessage wf memCtx rel)
    ∧ (rel = "" →
        relevantHeader ∉ buildEnrichedPromptParts userName timeStr userMessage wf memCtx rel) := by
  have hid : ("\nYou are assisting " ++ userName ++ ".") ∉ headerList :=
    fun hmem => identity_part_ne_header userName _ hmem rfl
  have htm : ("Current time: " ++ timeStr) ∉ headerList :=
    fun hmem => time_part_ne_header timeStr _ hmem rfl
  have hum : ("\n## USER MESSAGE\n" ++ userMessage) ∉ headerList :=
    fun hmem => user_part_ne_header userMessage _ hmem rfl
  have f1 : isHeaderPart ("\nYou are assisting " ++ userName ++ ".") = false := decide_eq_false hid
  have f2 : isHeaderPart ("Current time: " ++ timeStr) = false := decide_eq_false htm
  have f3 : isHeaderPart ("\n## USER MESSAGE\n" ++ userMessage) = false := decide_eq_false hum
  have g1 : isHeaderPart wf.soul = false := decide_eq_false hs
  have g2 : isHeaderPart wf.agents = false := decide_eq_false ha
  have g3 : isHeaderPart wf.tools = false := decide_eq_false ht
  have g4 : isHeaderPart wf.memory = false := decide_eq_false hm
  have g5 : isHeaderPart memCtx = false := decide_eq_false hmc
  have g6 : isHeaderPart rel = false := decide_eq_false hr
  have hpre : preambleParts.filter isHeaderPart = [] := by decide
  have hmmf : memMgmtParts.filter isHeaderPart = [] := by decide
  have hwho : isHeaderPart whoHeader = true := by decide
  have hwg : isHeaderPart workspaceHeader = true := by decide
  have hle : isHeaderPart localEnvHeader = true := by decide
  have hym : isHeaderPart memoryHeader = true := by decide
  have hfg : isHeaderPart factsHeader = true := by decide
  have hrp : isHeaderPart relevantHeader = true := by decide
  have master :
      (buildEnrichedPromptParts userName timeStr userMessage wf memCtx rel).filter isHeaderPart
      = (if wf.soul = "" then [] else [whoHeader])
        ++ (if wf.agents = "" then [] else [workspaceHeader])
        ++ (if wf.tools = "" then [] else [localEnvHeader])
        ++ (if wf.memory = "" then [] else [memoryHeader])
        ++ (if memCtx = "" then [] else [factsHeader])
        ++ (if rel = "" then [] else [relevantHeader]) := by
    simp only [buildEnrichedPromptParts, List.filter_append, hpre, hmmf,
      apply_ite (List.filter isHeaderPart), List.filter_cons, List.filter_nil,
      hwho, hwg, hle, hym, hfg, hrp, g1, g2, g3, g4, g5, g6, f1, f2, f3,
      Bool.false_eq_true, if_true, if_false, ite_self, List.nil_append, List.append_nil]
  have hsub : ∀ (c : Prop) (inst : Decidable c) (x : String),
      List.Sublist (if c then ([] : List String) else [x]) [x] := by
    intro c inst x
    split
    · exact List.nil_sublist _
    · exact List.Sublist.refl _
  refine ⟨?_, ?_, ?_, ?_, ?_, ?_, ?_⟩
  · rw [master]
    have hHL : headerList
        = [whoHeader] ++ [workspaceHeader] ++ [localEnvHeader] ++ [memoryHeader]
          ++ [factsHeader] ++ [relevantHeader] := rfl
    rw [hHL]
    exact (((((hsub _ _ _).append (hsub _ _ _)).append (hsub _ _ _)).append
      (hsub _ _ _)).append (hsub _ _ _)).append (hsub _ _ _)
  · intro hempty hmem
    have hin : whoHeader ∈
        (buildEnrichedPromptParts userName timeStr userMessage wf memCtx rel).filter
          isHeaderPart := List.mem_filter.mpr ⟨hmem, by decide⟩
    rw [master, if_pos hempty] at hin
    split_ifs at hin <;> exact absurd hin (by decide)
  · intro hempty hmem
    have hin : workspaceHeader ∈
        (buildEnrichedPromptParts userName timeStr userMessage wf memCtx rel).filter
          isHeaderPart := List.mem_filter.mpr ⟨hmem, by decide⟩
    rw [master, if_pos hempty] at hin
    split_ifs at hin <;> exact absurd hin (by decide)
  · intro hempty hmem
    have hin : localEnvHeader ∈
        (buildEnrichedPromptParts userName timeStr userMessage wf memCtx rel).filter
          isHeaderPart := List.mem_filter.mpr ⟨hmem, by decide⟩
    rw [master, if_pos hempty] at hin
    split_ifs at hin <;> exact absurd hin (by decide)
  · intro hempty hmem
    have hin : memoryHeader ∈
        (buildEnrichedPromptParts userName timeStr userMessage wf memCtx rel).filter
          isHeaderPart := List.mem_filter.mpr ⟨hmem, by decide⟩
    rw [master, if_pos hempty] at hin
    split_ifs at hin <;> exact absurd hin (by decide)
  · intro hempty hmem
    have hin : factsHeader ∈
        (buildEnrichedPromptParts userName timeStr userMessage wf memCtx rel).filter
          isHeaderPart := List.mem_filter.mpr ⟨hmem, by decide⟩
    rw [master, if_pos hempty] at hin
    split_ifs at hin <;> exact absurd hin (by decide)
  · intro hempty hmem
    have hin : relevantHeader ∈
        (buildEnrichedPromptParts userName timeStr userMessage wf memCtx rel).filter
          isHeaderPart := List.mem_filter.mpr ⟨hmem, by decide⟩
    rw [master, if_pos hempty] at hin
    split_ifs at hin <;> exact absurd hin (by decide)

/-- Witness for C9: with every optional document empty, no header is
emitted. -/
theorem prompt_sections_witness :
    whoHeader ∉ buildEnrichedPromptParts "Sam" "noon" "hi" ⟨"", "", "", ""⟩ "" "" :=
  (prompt_sections_ordered_and_omitted "Sam" "noon" "hi" ⟨"", "", "", ""⟩ "" ""
    (by decide) (by decide) (by decide) (by decide) (by decide) (by decide)).2.1 rfl
